import Mathlib

/-!
Shallow embedding of `src/device.h` from the repository
`esp_deepsleep_temp_wifi_off`.

The file is a C configuration header consisting of one `#include` directive
and six `#define` directives.  We embed it as a list of preprocessor items,
model sequential preprocessing (a later `#define` of the same name replaces
the earlier one, as the C preprocessor effectively does), and prove the
spec's claims about the constants' values and the file's structure.
-/

/-- The body of a `#define` directive: an integer literal, a string literal,
or a bare identifier (a reference to a macro defined elsewhere, e.g. by an
included header). -/
inductive MacroBody where
  | intLit (n : Int)
  | strLit (s : String)
  | ident (name : String)
  deriving DecidableEq, Repr

/-- One top-level item of the header file: an `#include` directive, a
`#define` directive, or any other kind of declaration (a function,
statement, control flow, etc.).  `device.h` contains no item of the last
kind; the constructor exists so that the absence is a statement about the
file, not an artifact of the embedding. -/
inductive HeaderItem where
  | includeDirective (file : String)
  | define (name : String) (body : MacroBody)
  | otherDecl (text : String)
  deriving DecidableEq, Repr

/-- The contents of `src/device.h`, item by item, in source order. -/
def deviceHeader : List HeaderItem :=
  [ HeaderItem.includeDirective "DHT.h",
    HeaderItem.define "MQTT_TOPIC_PREFIX" (MacroBody.strLit "home/"),
    HeaderItem.define "DEVICE_SLEEP" (MacroBody.intLit 10),
    HeaderItem.define "RETRY_COUNT" (MacroBody.intLit 600),
    HeaderItem.define "DHTPIN" (MacroBody.intLit 2),
    HeaderItem.define "DHTTYPE" (MacroBody.ident "DHT11"),
    HeaderItem.define "IPNR" (MacroBody.intLit 251) ]

/-- Processing one item against the macro environment: a `#define`
installs its binding, replacing any earlier binding of the same name;
other items leave the environment unchanged. -/
def applyItem (env : List (String × MacroBody)) : HeaderItem → List (String × MacroBody)
  | HeaderItem.define n b => (n, b) :: env.filter (fun p => p.1 ≠ n)
  | _ => env

/-- The macro environment after processing a list of items in order,
starting from the empty environment. -/
def envAfter (items : List HeaderItem) : List (String × MacroBody) :=
  items.foldl applyItem []

/-- The value a macro name has after the whole file has been processed. -/
def lookupMacro (items : List HeaderItem) (name : String) : Option MacroBody :=
  List.lookup name (envAfter items)

/-- How many `#define` directives for a given name the file contains. -/
def defineCount (items : List HeaderItem) (name : String) : Nat :=
  items.countP (fun it =>
    match it with
    | HeaderItem.define n _ => n == name
    | _ => false)

/-- Whether an item is a `#define` directive. -/
def isDefine : HeaderItem → Bool
  | HeaderItem.define _ _ => true
  | _ => false

/-- Whether an item is an `#include` directive. -/
def isIncludeDirective : HeaderItem → Bool
  | HeaderItem.includeDirective _ => true
  | _ => false

/-- Whether an item is anything other than an `#include` or a `#define`
(a function, control flow, or some other declaration). -/
def isOtherDecl : HeaderItem → Bool
  | HeaderItem.otherDecl _ => true
  | _ => false

/-- The names defined by the file's `#define` directives, in source order. -/
def definedNames (items : List HeaderItem) : List String :=
  items.filterMap (fun it =>
    match it with
    | HeaderItem.define n _ => some n
    | _ => none)

/-- The files named by the file's `#include` directives, in source order. -/
def includedFiles (items : List HeaderItem) : List String :=
  items.filterMap (fun it =>
    match it with
    | HeaderItem.includeDirective f => some f
    | _ => none)

/-- The constant `MQTT_TOPIC_PREFIX` of `device.h`. -/
def MQTT_TOPIC_PREFIX : String := "home/"

/-- The constant `DEVICE_SLEEP` of `device.h`. -/
def DEVICE_SLEEP : Int := 10

/-- The constant `RETRY_COUNT` of `device.h`. -/
def RETRY_COUNT : Int := 600

/-- The constant `DHTPIN` of `device.h`. -/
def DHTPIN : Int := 2

/-- The constant `IPNR` of `device.h`. -/
def IPNR : Int := 251

/-- Modelled from the spec: the third-party sensor driver header `DHT.h`,
included by `device.h`, is not part of this repository.  The spec describes
`DHTTYPE` as a "sensor model selector used by the driver" of type
"enumerated constant" and names DHT11, "a low-cost digital
temperature/humidity sensor", as the model in use.  We model the driver as
providing the enumerated model-selector identifier `DHT11`. -/
def driverModelSelectors : List String := ["DHT11"]

/-- `n` is strictly positive and representable in a signed 16-bit integer. -/
def posFitsInt16 (n : Int) : Prop := 0 < n ∧ n ≤ 32767

/-- Claim C1: the constant DEVICE_SLEEP compiles to the literal integer
value 10. -/
theorem C1_DEVICE_SLEEP_is_10 :
    lookupMacro deviceHeader "DEVICE_SLEEP" = some (MacroBody.intLit DEVICE_SLEEP) ∧
    DEVICE_SLEEP = 10 := by
  decide

/-- Claim C2: the constant RETRY_COUNT compiles to the literal integer
value 600. -/
theorem C2_RETRY_COUNT_is_600 :
    lookupMacro deviceHeader "RETRY_COUNT" = some (MacroBody.intLit RETRY_COUNT) ∧
    RETRY_COUNT = 600 := by
  decide

/-- Claim C3: the constant DHTPIN compiles to the literal integer value 2. -/
theorem C3_DHTPIN_is_2 :
    lookupMacro deviceHeader "DHTPIN" = some (MacroBody.intLit DHTPIN) ∧
    DHTPIN = 2 := by
  decide

/-- Claim C4: the constant IPNR compiles to the literal integer value 251. -/
theorem C4_IPNR_is_251 :
    lookupMacro deviceHeader "IPNR" = some (MacroBody.intLit IPNR) ∧
    IPNR = 251 := by
  decide

/-- Claim C5: the constant MQTT_TOPIC_PREFIX is a string literal, not an
integer or identifier constant; its value is the string "home/", which ends
in the MQTT topic-level separator character '/'. -/
theorem C5_topic_is_string_ending_in_slash :
    lookupMacro deviceHeader "MQTT_TOPIC_PREFIX" = some (MacroBody.strLit MQTT_TOPIC_PREFIX) ∧
    MQTT_TOPIC_PREFIX = "home/" ∧
    MQTT_TOPIC_PREFIX.data.getLast? = some '/' ∧
    (∀ n : Int, lookupMacro deviceHeader "MQTT_TOPIC_PREFIX" ≠ some (MacroBody.intLit n)) ∧
    (∀ id : String, lookupMacro deviceHeader "MQTT_TOPIC_PREFIX" ≠ some (MacroBody.ident id)) := by
  have e : lookupMacro deviceHeader "MQTT_TOPIC_PREFIX" =
      some (MacroBody.strLit "home/") := by decide
  refine ⟨by decide, by decide, by decide, fun n h => ?_, fun id h => ?_⟩
  · rw [e] at h
    exact MacroBody.noConfusion (Option.some.inj h)
  · rw [e] at h
    exact MacroBody.noConfusion (Option.some.inj h)

/-- Claim C6: the constant DHTTYPE is defined as the identifier DHT11 — the
driver's enumerated sensor-model selector for the DHT11 sensor — and not as
a bare numeric literal. -/
theorem C6_DHTTYPE_is_driver_model_selector :
    lookupMacro deviceHeader "DHTTYPE" = some (MacroBody.ident "DHT11") ∧
    "DHT11" ∈ driverModelSelectors ∧
    (∀ n : Int, lookupMacro deviceHeader "DHTTYPE" ≠ some (MacroBody.intLit n)) := by
  have e : lookupMacro deviceHeader "DHTTYPE" = some (MacroBody.ident "DHT11") := by decide
  refine ⟨e, by decide, fun n h => ?_⟩
  rw [e] at h
  exact MacroBody.noConfusion (Option.some.inj h)

/-- Claim C7: the value of IPNR lies in the range 0 to 255 inclusive, so it
fits in an unsigned 8-bit integer and is representable as the last octet of
an IPv4 address. -/
theorem C7_IPNR_fits_octet :
    lookupMacro deviceHeader "IPNR" = some (MacroBody.intLit IPNR) ∧
    0 ≤ IPNR ∧ IPNR ≤ 255 := by
  decide

/-- Claim C8: each of the six constants is defined exactly once in the
header, and the value each name has after the whole file has been processed
equals the value given at its single definition — nothing later in the file
redefines or mutates any of them. -/
theorem C8_constants_defined_once_and_immutable :
    (defineCount deviceHeader "MQTT_TOPIC_PREFIX" = 1 ∧
      lookupMacro deviceHeader "MQTT_TOPIC_PREFIX" = some (MacroBody.strLit "home/")) ∧
    (defineCount deviceHeader "DEVICE_SLEEP" = 1 ∧
      lookupMacro deviceHeader "DEVICE_SLEEP" = some (MacroBody.intLit 10)) ∧
    (defineCount deviceHeader "RETRY_COUNT" = 1 ∧
      lookupMacro deviceHeader "RETRY_COUNT" = some (MacroBody.intLit 600)) ∧
    (defineCount deviceHeader "DHTPIN" = 1 ∧
      lookupMacro deviceHeader "DHTPIN" = some (MacroBody.intLit 2)) ∧
    (defineCount deviceHeader "DHTTYPE" = 1 ∧
      lookupMacro deviceHeader "DHTTYPE" = some (MacroBody.ident "DHT11")) ∧
    (defineCount deviceHeader "IPNR" = 1 ∧
      lookupMacro deviceHeader "IPNR" = some (MacroBody.intLit 251)) := by
  decide

/-- Claim C9: the source file consists of exactly one include directive
(of the third-party sensor driver header "DHT.h") and exactly six define
directives, for exactly the six named constants in source order, and
contains no functions, no control flow, and no other declarations. -/
theorem C9_file_is_one_include_and_six_defines :
    deviceHeader.countP isIncludeDirective = 1 ∧
    includedFiles deviceHeader = ["DHT.h"] ∧
    deviceHeader.countP isDefine = 6 ∧
    definedNames deviceHeader =
      ["MQTT_TOPIC_PREFIX", "DEVICE_SLEEP", "RETRY_COUNT", "DHTPIN", "DHTTYPE", "IPNR"] ∧
    deviceHeader.countP isOtherDecl = 0 ∧
    deviceHeader.length = 7 := by
  decide

/-- Claim C10: every integer constant defined in the header is strictly
positive and fits in a 16-bit signed integer. -/
theorem C10_integer_constants_positive_and_fit_int16 :
    posFitsInt16 DEVICE_SLEEP ∧ posFitsInt16 RETRY_COUNT ∧
    posFitsInt16 DHTPIN ∧ posFitsInt16 IPNR := by
  unfold posFitsInt16
  decide
